import Mathlib

/-!
Shallow embedding of the reddit/edgecontext Go library, centred on the
authentication-token validation and key-rotation subsystem
(lib/go/edgecontext: validator, keysType, parseVersionedKeys,
RSAPublicKeyFingerprint, validatorMiddleware, and the header/context
plumbing in edgecontext.go).

Machine integers are modelled as Nat with explicit reductions mod 2^32
where the Go code uses uint32 arithmetic (SHA-256).  Byte strings are
List Nat (each entry a byte value).  External collaborators
(golang-jwt/jwt v4, x/crypto/ssh, baseplate.go secrets) are modelled at
their documented interfaces; where a model stands in for library code its
doc comment says so.
-/

deriving instance DecidableEq for Except

namespace Edgecontext

/-- An RSA public key, as in Go crypto/rsa: modulus N and public exponent E.
Opaque to the core after parsing; we keep the two numeric components so that
the SSH wire encoding (and hence the fingerprint) is a function of the key's
bytes, as in the source. -/
structure PublicKey where
  n : Nat
  e : Nat
deriving DecidableEq, Repr

/-! ## SHA-256 (model of Go crypto/sha256, FIPS 180-4) -/

/-- Truncate to a 32-bit word. -/
def w32 (x : Nat) : Nat := x % 4294967296

/-- Rotate a 32-bit word right by n bits. -/
def rotr32 (x n : Nat) : Nat := w32 ((x >>> n) ||| (x <<< (32 - n)))

def shaCh (e f g : Nat) : Nat := (e &&& f) ^^^ ((e ^^^ 4294967295) &&& g)

def shaMaj (a b c : Nat) : Nat := (a &&& b) ^^^ (a &&& c) ^^^ (b &&& c)

def shaS0 (x : Nat) : Nat := rotr32 x 2 ^^^ rotr32 x 13 ^^^ rotr32 x 22

def shaS1 (x : Nat) : Nat := rotr32 x 6 ^^^ rotr32 x 11 ^^^ rotr32 x 25

def shas0 (x : Nat) : Nat := rotr32 x 7 ^^^ rotr32 x 18 ^^^ (x >>> 3)

def shas1 (x : Nat) : Nat := rotr32 x 17 ^^^ rotr32 x 19 ^^^ (x >>> 10)

def sha256K : List Nat :=
  [1116352408, 1899447441, 3049323471, 3921009573, 961987163,
   1508970993, 2453635748, 2870763221, 3624381080, 310598401,
   607225278, 1426881987, 1925078388, 2162078206, 2614888103,
   3248222580, 3835390401, 4022224774, 264347078, 604807628,
   770255983, 1249150122, 1555081692, 1996064986, 2554220882,
   2821834349, 2952996808, 3210313671, 3336571891, 3584528711,
   113926993, 338241895, 666307205, 773529912, 1294757372,
   1396182291, 1695183700, 1986661051, 2177026350, 2456956037,
   2730485921, 2820302411, 3259730800, 3345764771, 3516065817,
   3600352804, 4094571909, 275423344, 430227734, 506948616,
   659060556, 883997877, 958139571, 1322822218, 1537002063,
   1747873779, 1955562222, 2024104815, 2227730452, 2361852424,
   2428436474, 2756734187, 3204031479, 3329325298]

/-- Extend a 16-word message block to the 64-word schedule; fuel counts the
remaining words to append (48 at the top call). -/
def sha256Extend : Nat → List Nat → List Nat
  | 0, ws => ws
  | fuel + 1, ws =>
    let n := ws.length
    let nw := w32 (ws.getD (n - 16) 0 + shas0 (ws.getD (n - 15) 0) +
                   ws.getD (n - 7) 0 + shas1 (ws.getD (n - 2) 0))
    sha256Extend fuel (ws ++ [nw])

structure Sha256State where
  a : Nat
  b : Nat
  c : Nat
  d : Nat
  e : Nat
  f : Nat
  g : Nat
  h : Nat
deriving DecidableEq, Repr

def sha256Init : Sha256State :=
  ⟨1779033703, 3144134277, 1013904242, 2773480762,
   1359893119, 2600822924, 528734635, 1541459225⟩

def sha256Round (s : Sha256State) (k wi : Nat) : Sha256State :=
  let t1 := w32 (s.h + shaS1 s.e + shaCh s.e s.f s.g + k + wi)
  let t2 := w32 (shaS0 s.a + shaMaj s.a s.b s.c)
  ⟨w32 (t1 + t2), s.a, s.b, s.c, w32 (s.d + t1), s.e, s.f, s.g⟩

def sha256Compress (st : Sha256State) (block : List Nat) : Sha256State :=
  let ws := sha256Extend 48 block
  let s := (sha256K.zip ws).foldl (fun s kw => sha256Round s kw.1 kw.2) st
  ⟨w32 (st.a + s.a), w32 (st.b + s.b), w32 (st.c + s.c), w32 (st.d + s.d),
   w32 (st.e + s.e), w32 (st.f + s.f), w32 (st.g + s.g), w32 (st.h + s.h)⟩

/-- Fixed-width big-endian byte rendering of a Nat. -/
def natToBytesBE : Nat → Nat → List Nat
  | 0, _ => []
  | width + 1, n => natToBytesBE width (n / 256) ++ [n % 256]

/-- SHA-256 padding: append 0x80, zeros, then the 64-bit big-endian bit length,
reaching a multiple of 64 bytes. -/
def sha256Pad (msg : List Nat) : List Nat :=
  let len := msg.length
  let zeros := (64 - ((len + 9) % 64)) % 64
  msg ++ [128] ++ List.replicate zeros 0 ++ natToBytesBE 8 (len * 8)

/-- Group bytes into big-endian 32-bit words. -/
def bytesToWords : List Nat → List Nat
  | a :: b :: c :: d :: rest =>
    (a * 16777216 + b * 65536 + c * 256 + d) :: bytesToWords rest
  | _ => []

/-- Group the word stream into 16-word blocks; fuel bounds the recursion. -/
def chunk16 : Nat → List Nat → List (List Nat)
  | 0, _ => []
  | _ + 1, [] => []
  | fuel + 1, ws => ws.take 16 :: chunk16 fuel (ws.drop 16)

def sha256StateBytes (s : Sha256State) : List Nat :=
  natToBytesBE 4 s.a ++ natToBytesBE 4 s.b ++ natToBytesBE 4 s.c ++
  natToBytesBE 4 s.d ++ natToBytesBE 4 s.e ++ natToBytesBE 4 s.f ++
  natToBytesBE 4 s.g ++ natToBytesBE 4 s.h

/-- SHA-256 digest (32 bytes) of a byte string. -/
def sha256 (msg : List Nat) : List Nat :=
  let padded := sha256Pad msg
  let blocks := chunk16 padded.length (bytesToWords padded)
  sha256StateBytes (blocks.foldl sha256Compress sha256Init)

/-! ## Base64 (model of Go encoding/base64 RawStdEncoding: standard
alphabet, no padding) -/

def base64Table : List Char :=
  "ABCDEFGHIJKLMNOPQRSTUVWXYZabcdefghijklmnopqrstuvwxyz0123456789+/".toList

def base64Char (n : Nat) : Char := base64Table.getD n 'A'

def base64RawStd : List Nat → String
  | [] => ""
  | [a] =>
    String.mk [base64Char (a >>> 2), base64Char (w32 ((a &&& 3) <<< 4) % 64)]
  | [a, b] =>
    String.mk [base64Char (a >>> 2),
               base64Char (((a &&& 3) <<< 4) ||| (b >>> 4)),
               base64Char (((b &&& 15) <<< 2) % 64)]
  | a :: b :: c :: rest =>
    String.mk [base64Char (a >>> 2),
               base64Char (((a &&& 3) <<< 4) ||| (b >>> 4)),
               base64Char (((b &&& 15) <<< 2) ||| (c >>> 6)),
               base64Char (c &&& 63)] ++ base64RawStd rest

/-! ## SSH wire encoding and fingerprint (model of x/crypto/ssh) -/

/-- Minimal big-endian byte rendering of a Nat (empty for 0); fuel bounds the
recursion and the top call passes the number itself, which suffices since the
argument strictly shrinks by a factor of 256 each step. -/
def natBEAux : Nat → Nat → List Nat
  | _, 0 => []
  | 0, _ => []
  | fuel + 1, n => natBEAux fuel (n / 256) ++ [n % 256]

def natBE (n : Nat) : List Nat := natBEAux n n

/-- SSH uint32-length-prefixed byte string. -/
def sshString (s : List Nat) : List Nat := natToBytesBE 4 s.length ++ s

/-- SSH mpint encoding of a non-negative integer: minimal big-endian bytes
with a leading zero byte when the high bit is set, empty for zero. -/
def sshMpint (x : Nat) : List Nat :=
  let bs := natBE x
  sshString (if 128 ≤ bs.headD 0 then 0 :: bs else bs)

/-- Model of (rsaPublicKey).Marshal in x/crypto/ssh: the name "ssh-rsa" as an
SSH string, then the exponent and the modulus as mpints. -/
def sshWireRSA (k : PublicKey) : List Nat :=
  sshString [115, 115, 104, 45, 114, 115, 97] ++ sshMpint k.e ++ sshMpint k.n

/-- Model of x/crypto ssh.FingerprintSHA256 applied to an RSA key: SHA256:
followed by the unpadded standard base64 of the SHA-256 of the wire form. -/
def FingerprintSHA256 (wire : List Nat) : String :=
  "SHA256:" ++ base64RawStd (sha256 wire)

/-- Model of x/crypto ssh.NewPublicKey at type rsa.PublicKey: the library
returns the wrapped key and a nil error on this branch of its type switch,
so the error case is unreachable for RSA keys. -/
def sshNewPublicKey (k : PublicKey) : Except String (List Nat) :=
  Except.ok (sshWireRSA k)

/-- RSAPublicKeyFingerprint from the source: ssh.NewPublicKey then
ssh.FingerprintSHA256. -/
def RSAPublicKeyFingerprint (pubKey : PublicKey) : Except String String :=
  match sshNewPublicKey pubKey with
  | Except.error e => Except.error e
  | Except.ok wire => Except.ok (FingerprintSHA256 wire)

/-! ## keysType and parseVersionedKeys -/

/-- The keysType of the source: a map from key id (fingerprint) to public
key, plus the first successfully parsed key.  The Go map holds values of
pointer type, so an entry can in principle be a nil pointer; we keep the
value type Option PublicKey to model that, and the nil pointer returned by
indexing a missing entry is the none of mapIndex below. -/
structure keysType where
  m : List (String × Option PublicKey)
  first : Option PublicKey
deriving DecidableEq, Repr

/-- Go map indexing: the stored value when the key is present, the zero
value (nil pointer, here none) when absent. -/
def mapIndex (m : List (String × Option PublicKey)) (kid : String) :
    Option PublicKey :=
  match m.lookup kid with
  | some v => v
  | none => none

/-- Go map assignment m[k] = v: replaces an existing entry, else adds one. -/
def mapInsert (m : List (String × Option PublicKey)) (kid : String)
    (v : Option PublicKey) : List (String × Option PublicKey) :=
  match m with
  | [] => [(kid, v)]
  | (k, w) :: rest =>
    if k = kid then (kid, v) :: rest else (k, w) :: mapInsert rest kid v

/-- keysType.getKey from the source: the map entry when present and
non-nil, otherwise the first key. -/
def keysType.getKey (kt : keysType) (kid : String) : Option PublicKey :=
  match mapIndex kt.m kid with
  | some key => some key
  | none => kt.first

def authenticationPubKeySecretPath : String :=
  "secret/authentication/public-key"

def jwtAlg : String := "RS256"

/-- The log line of parseVersionedKeys for a candidate that fails PEM
parsing (the error detail of the Go message is elided). -/
def parseFailMsg (i : Nat) : String :=
  "Failed to parse key #" ++ toString i ++ ": parse error"

/-- The log line of parseVersionedKeys for a key whose fingerprint cannot
be computed (unreachable for RSA keys, kept for fidelity). -/
def fingerprintFailMsg (i : Nat) : String :=
  "Failed to get fingerprint of key #" ++ toString i ++ ": error"

def noValidKeysMsg : String := "No valid keys in secrets store."

/-- The loop body of parseVersionedKeys, fuelled by the candidate list: for
each candidate in order, attempt the PEM parse (the external
jwt.ParseRSAPublicKeyFromPEM is the parsePEM argument); on failure log and
continue; on success record it as first if none is recorded yet, then index
it by its fingerprint unless fingerprinting fails (which is also only
logged).  Returns the accumulated keysType and the log lines. -/
def parseLoop (parsePEM : String → Option PublicKey) :
    Nat → List String → keysType → keysType × List String
  | _, [], kt => (kt, [])
  | i, v :: rest, kt =>
    match parsePEM v with
    | none =>
      let out := parseLoop parsePEM (i + 1) rest kt
      (out.1, parseFailMsg i :: out.2)
    | some key =>
      let kt1 : keysType :=
        if kt.first.isNone then { kt with first := some key } else kt
      match RSAPublicKeyFingerprint key with
      | Except.error _ =>
        let out := parseLoop parsePEM (i + 1) rest kt1
        (out.1, fingerprintFailMsg i :: out.2)
      | Except.ok fingerprint =>
        parseLoop parsePEM (i + 1) rest
          { kt1 with m := mapInsert kt1.m fingerprint (some key) }

/-- parseVersionedKeys from the source, over the ordered candidate list
delivered by versioned.GetAll(): run the loop from an empty keysType; if no
candidate parsed, log and return nil. -/
def parseVersionedKeys (parsePEM : String → Option PublicKey)
    (all : List String) : Option keysType × List String :=
  let out := parseLoop parsePEM 0 all { m := [], first := none }
  if out.1.first.isNone then (none, out.2 ++ [noValidKeysMsg])
  else (some out.1, out.2)

/-- A versioned secret as in baseplate.go secrets: current, previous and
next credential values. -/
structure VersionedSecret where
  current : String
  previous : String
  next : String
deriving DecidableEq, Repr

/-- Model of baseplate.go secrets.VersionedSecret.GetAll: current, then
previous and next when non-empty. -/
def VersionedSecret.GetAll (v : VersionedSecret) : List String :=
  [v.current] ++ (if v.previous = "" then [] else [v.previous]) ++
    (if v.next = "" then [] else [v.next])

/-- parseVersionedKeys applied to a versioned secret, as the middleware
calls it. -/
def parseVersionedKeysSecret (parsePEM : String → Option PublicKey)
    (versioned : VersionedSecret) : Option keysType × List String :=
  parseVersionedKeys parsePEM versioned.GetAll

/-! ## Rotation middleware -/

/-- The secrets snapshot handed to secret middlewares; its
GetVersionedSecret either yields the versioned secret at a path or an
error (model of baseplate.go secrets.Secrets at the interface the
middleware uses). -/
structure Secrets where
  getVersionedSecret : String → Except String VersionedSecret

def getSecretsFailMsg (e : String) : String :=
  "Failed to get secrets \x22" ++ authenticationPubKeySecretPath ++ "\x22: " ++ e

/-- The observable outcome of one invocation of the handler returned by
Impl.validatorMiddleware: the keysValue held by the Impl afterwards, the
log lines emitted, and the list of invocations of the wrapped next handler
in order. -/
structure MWOutcome where
  keysValue : Option keysType
  logs : List String
  nextCalls : List Secrets

/-- Impl.validatorMiddleware from the source, as a state transformer on
the Impl's keysValue.  Each exit path of the Go closure runs the deferred
next(sec) exactly once, so every branch below records that single call:
on a GetVersionedSecret error it logs and returns; when parsing yields nil
it leaves keysValue alone; otherwise it stores the new keysType. -/
def validatorMiddleware (parsePEM : String → Option PublicKey)
    (keysValue : Option keysType) (sec : Secrets) : MWOutcome :=
  match sec.getVersionedSecret authenticationPubKeySecretPath with
  | Except.error e => ⟨keysValue, [getSecretsFailMsg e], [sec]⟩
  | Except.ok versioned =>
    match parseVersionedKeysSecret parsePEM versioned with
    | (none, logs) => ⟨keysValue, logs, [sec]⟩
    | (some keys, logs) => ⟨some keys, logs, [sec]⟩

/-! ## Token validation (Impl.ValidateToken, with golang-jwt v4 modelled
at its interface) -/

/-- The registered JWT claims embedded in AuthenticationToken (golang-jwt
RegisteredClaims); timestamps are unix seconds. -/
structure RegisteredClaims where
  issuer : String := ""
  subject : String := ""
  audience : List String := []
  expiresAt : Option Int := none
  notBefore : Option Int := none
  issuedAt : Option Int := none
  jwtID : String := ""
deriving DecidableEq, Repr

/-- AuthenticationToken from token.go: the registered claims plus the
reddit-specific fields. -/
structure AuthenticationToken where
  registeredClaims : RegisteredClaims
  roles : List String := []
  oauthClientID : String := ""
  oauthClientType : String := ""
  scopes : List String := []
  loidID : String := ""
  loidCreatedAt : Int := 0
deriving DecidableEq, Repr

def AuthenticationToken.Subject (t : AuthenticationToken) : String :=
  t.registeredClaims.subject

/-- The validation-error bitmask of golang-jwt v4 (the flags the modelled
paths can set). -/
structure ValidationError where
  malformed : Bool := false
  unverifiable : Bool := false
  signatureInvalid : Bool := false
  expired : Bool := false
  issuedAt : Bool := false
  notValidYet : Bool := false
deriving DecidableEq, Repr

/-- Model of golang-jwt v4 RegisteredClaims.Valid with the current time:
exp must be strictly in the future when present, iat and nbf must not be
in the future when present; none of the three is required. -/
def RegisteredClaims.validateAt (c : RegisteredClaims) (now : Int) :
    ValidationError :=
  { expired := match c.expiresAt with
      | none => false
      | some exp => decide (exp ≤ now),
    issuedAt := match c.issuedAt with
      | none => false
      | some iat => decide (now < iat),
    notValidYet := match c.notBefore with
      | none => false
      | some nbf => decide (now < nbf) }

/-- The families of signing methods registered in golang-jwt v4.3.0,
keyed by the alg header value. -/
inductive SigningMethodKind where
  | rsa
  | rsapss
  | hmac
  | ecdsa
  | eddsa
  | sigNone
deriving DecidableEq, Repr

/-- Model of golang-jwt v4 GetSigningMethod: the registered methods and
their families; an unregistered alg yields none. -/
def getSigningMethod (alg : String) : Option SigningMethodKind :=
  if alg = "RS256" ∨ alg = "RS384" ∨ alg = "RS512" then
    some SigningMethodKind.rsa
  else if alg = "PS256" ∨ alg = "PS384" ∨ alg = "PS512" then
    some SigningMethodKind.rsapss
  else if alg = "HS256" ∨ alg = "HS384" ∨ alg = "HS512" then
    some SigningMethodKind.hmac
  else if alg = "ES256" ∨ alg = "ES384" ∨ alg = "ES512" then
    some SigningMethodKind.ecdsa
  else if alg = "EdDSA" then some SigningMethodKind.eddsa
  else if alg = "none" then some SigningMethodKind.sigNone
  else none

/-- The abstract content of a structurally well-formed JWT string: the alg
header, the optional kid header, the decoded claims, and the semantic
predicate sigOK saying whether the token's signature bytes verify under a
given RSA-family alg and RSA public key. -/
structure JWTData where
  alg : String
  kid : Option String
  claims : AuthenticationToken
  sigOK : String → PublicKey → Bool

/-- Model of method.Verify in golang-jwt v4 given that the keyfunc of
ValidateToken always supplies a value of Go type rsa.PublicKey pointer:
the RSA and RSA-PSS methods accept that key type and check the signature;
HMAC, ECDSA, EdDSA and none reject the key type (ErrInvalidKeyType and
kin), and a nil key pointer never verifies. -/
def methodVerify (kind : SigningMethodKind) (alg : String)
    (key : Option PublicKey) (sigOK : String → PublicKey → Bool) : Bool :=
  match kind, key with
  | SigningMethodKind.rsa, some k => sigOK alg k
  | SigningMethodKind.rsapss, some k => sigOK alg k
  | _, _ => false

def malformedErr : ValidationError := { malformed := true }

def unavailableAlgErr : ValidationError := { unverifiable := true }

/-- Model of golang-jwt v4 (*Parser).ParseWithClaims with the keyfunc of
ValidateToken: a string that fails structural parsing (decode yields none)
is malformed; an unregistered alg is unverifiable; otherwise the key is
resolved through keysType.getKey on the kid header (the missing-header
zero value is the empty string), the registered claims are validated at
the current time, the signature is verified, and the error bits are
combined — success (with token.Valid set) exactly when no bit is set. -/
def parseWithClaims (now : Int) (keys : keysType)
    (d : Option JWTData) :
    Except ValidationError (String × AuthenticationToken) :=
  match d with
  | none => Except.error malformedErr
  | some jd =>
    match getSigningMethod jd.alg with
    | none => Except.error unavailableAlgErr
    | some kind =>
      let key := keys.getKey (jd.kid.getD "")
      let cErr := jd.claims.registeredClaims.validateAt now
      let sigFail := !(methodVerify kind jd.alg key jd.sigOK)
      let vErr := { cErr with signatureInvalid := sigFail }
      if vErr = ({} : ValidationError) then Except.ok (jd.alg, jd.claims)
      else Except.error vErr

/-- The errors Impl.ValidateToken can return: the two sentinel errors, an
error propagated from jwt.ParseWithClaims, and the three validation errors
it constructs itself (of which invalidToken and invalidTokenType guard
paths that are unreachable with the v4 parser, which sets token.Valid
exactly when it returns a nil error and always yields the claims type it
was given). -/
inductive TokenError where
  | errNoPublicKeysLoaded
  | errEmptyToken
  | jwtError (e : ValidationError)
  | invalidToken
  | wrongSigningMethod
  | invalidTokenType
deriving DecidableEq, Repr

/-- Impl.ValidateToken from the source: fail when no keysType was ever
stored, then when the token is the empty string; otherwise parse and
verify through the jwt library (decode gives the structural content of
the token string), and reject a valid token whose method's alg is not
RS256 with the wrong-signing-method error. -/
def ValidateToken (now : Int) (decode : String → Option JWTData)
    (keysValue : Option keysType) (token : String) :
    Except TokenError AuthenticationToken :=
  match keysValue with
  | none => Except.error TokenError.errNoPublicKeysLoaded
  | some keys =>
    if token = "" then Except.error TokenError.errEmptyToken
    else
      match parseWithClaims now keys (decode token) with
      | Except.error e => Except.error (TokenError.jwtError e)
      | Except.ok (alg, claims) =>
        if alg ≠ jwtAlg then Except.error TokenError.wrongSigningMethod
        else Except.ok claims

/-! ## Context and header plumbing (edgecontext.go) -/

/-- NewArgs from edgecontext.go (all fields optional; zero values for the
absent ones). -/
structure NewArgs where
  loID : String := ""
  loIDCreatedAt : Int := 0
  sessionID : String := ""
  deviceID : String := ""
  authToken : String := ""
  originServiceName : String := ""
  countryCode : String := ""
  requestID : String := ""
  localeCode : String := ""
deriving DecidableEq, Repr

/-- The deserialized thrift Request payload (internal reddit/edgecontext
thrift struct): an authentication token plus optional sub-structs, each
modelled by the fields FromHeader reads from it. -/
structure ECRequest where
  authenticationToken : String := ""
  session : Option String := none
  device : Option String := none
  loid : Option (String × Int) := none
  originService : Option String := none
  geolocation : Option String := none
  requestID : Option String := none
  locale : Option String := none
deriving DecidableEq, Repr

/-- An EdgeRequestContext as FromHeader builds it: the raw serialized
header and the extracted args.  The impl and ctx back-references of the Go
struct are plumbing not needed by the modelled operations. -/
structure EdgeRequestContext where
  header : String
  raw : NewArgs
deriving DecidableEq, Repr

/-- A Go context restricted to the single context key this package uses:
context.WithValue wraps, so the model is the stack of values attached for
edgeContextKey. -/
def GoContext := List EdgeRequestContext

instance : DecidableEq GoContext := List.hasDecEq

/-- SetEdgeContext from the source: returns the context unchanged for a
nil EdgeRequestContext, else attaches the value. -/
def SetEdgeContext (ctx : GoContext) (ec : Option EdgeRequestContext) :
    GoContext :=
  match ec with
  | none => ctx
  | some e => e :: ctx

/-- GetEdgeContext from the source: the innermost attached value, if
any. -/
def GetEdgeContext (ctx : GoContext) : Option EdgeRequestContext :=
  ctx.head?

/-- The field-by-field extraction FromHeader performs on a successfully
deserialized request (nil sub-structs leave the corresponding zero
values). -/
def requestToArgs (request : ECRequest) : NewArgs :=
  { authToken := request.authenticationToken,
    sessionID := (request.session.map id).getD "",
    deviceID := (request.device.map id).getD "",
    loID := (request.loid.map Prod.fst).getD "",
    loIDCreatedAt := (request.loid.map Prod.snd).getD 0,
    originServiceName := (request.originService.map id).getD "",
    countryCode := (request.geolocation.map id).getD "",
    requestID := (request.requestID.map id).getD "",
    localeCode := (request.locale.map id).getD "" }

/-- FromHeader from the source: a nil context-and-error pair for the empty
header; otherwise deserialize the header (the external thrift
deserializer is the deserialize argument) and build the
EdgeRequestContext. -/
def FromHeader (deserialize : String → Option ECRequest)
    (header : String) : Except String (Option EdgeRequestContext) :=
  if header = "" then Except.ok none
  else
    match deserialize header with
    | none => Except.error "thrift deserialize error"
    | some request =>
      Except.ok (some { header := header, raw := requestToArgs request })

/-- Impl.HeaderToContext from the source: on a FromHeader error return the
original context and a wrapped error; otherwise attach the (possibly nil)
EdgeRequestContext and return no error. -/
def HeaderToContext (deserialize : String → Option ECRequest)
    (ctx : GoContext) (header : String) : GoContext × Option String :=
  match FromHeader deserialize header with
  | Except.error e =>
    (ctx, some ("edgecontext.Impl.HeaderToContext: failed to parse header: "
      ++ e))
  | Except.ok ec => (SetEdgeContext ctx ec, none)

/-! ## Concrete instances used by witnesses and counterexamples -/

/-- The RSA public key of the first test constant of
validator_middleware_test.go (validKey1 / fingerprint1). -/
def repoTestKey1 : PublicKey :=
  { n := 0xb733270c440f77be50641ca880d941358d9abb2af8b32f143530c046cefd11dabf270e6d6fbb9be35da6381eb5995adcb85656eb17e6091b7420b828693eba4e9d51a6e11f8210fe7bb6d867e436a5c902d596953c85557ff65c099d2d2901e80fc129cb214834a8c2879d7a56b0b12ae3a6d9f00b3c1ff10f00c111d795265879ff71c73f6577e6c71dbc3464bebdaa91cbe1ce8cb4fbbc14585459da7e874c5af13074281e0d2dbad0091248ec330f717cded5d3b73de7648735166fbbcd15e441299cac3f8982975230a6a179bcb6926fe645c7e973e07ef3a2ad26d37eea3ed151aa548c7d81ca26cc9d08e567c64c3db6740c438914fbabb2999cd82d4f,
    e := 65537 }

/-- A small concrete RSA public key for witnesses. -/
def keyA : PublicKey := { n := 197, e := 3 }

/-- An installed keysType whose map is empty and whose first key is keyA. -/
def keysOnlyFirst : keysType := { m := [], first := some keyA }

/-- A PEM parser model that accepts no candidate. -/
def parsePEMNone : String → Option PublicKey := fun _ => none

/-- A PEM parser model that accepts exactly the candidate "K1" as keyA. -/
def parsePEMK1 : String → Option PublicKey :=
  fun s => if s = "K1" then some keyA else none

/-- The keysType produced by parseVersionedKeys over the single parseable
candidate "K1" under parsePEMK1. -/
def ktK1 : keysType :=
  ((parseVersionedKeys parsePEMK1 ["bad", "K1"]).1).getD { m := [], first := none }

/-- A structurally well-formed token declaring HS256, with a signature that
would verify under any algorithm and key. -/
def hs256jd : JWTData :=
  { alg := "HS256", kid := none, claims := { registeredClaims := {} },
    sigOK := fun _ _ => true }

/-- A structurally well-formed token declaring RS384, with a signature that
would verify under any algorithm and key. -/
def rs384jd : JWTData :=
  { alg := "RS384", kid := none, claims := { registeredClaims := {} },
    sigOK := fun _ _ => true }

def decodeHS256 : String → Option JWTData := fun _ => some hs256jd

def decodeRS384 : String → Option JWTData := fun _ => some rs384jd

def decodeNone : String → Option JWTData := fun _ => none

/-- A versioned secret none of whose candidates parses under
parsePEMNone. -/
def badVersioned : VersionedSecret := { current := "bad", previous := "", next := "" }

/-- A secrets snapshot that yields badVersioned at every path. -/
def secretsBad : Secrets := { getVersionedSecret := fun _ => Except.ok badVersioned }

/-- The keysType update a successfully parsed candidate applies inside the
loop of parseVersionedKeys (record as first if none yet, then index by
fingerprint; the fingerprint computation never fails for RSA keys, see
sshNewPublicKey). -/
def applyKey (kt : keysType) (key : PublicKey) : keysType :=
  let kt1 : keysType :=
    if kt.first.isNone then { kt with first := some key } else kt
  { kt1 with
    m := mapInsert kt1.m (FingerprintSHA256 (sshWireRSA key)) (some key) }

/-! ## Helper lemmas -/

theorem parseLoop_cons_fail (parsePEM : String → Option PublicKey)
    (i : Nat) (v : String) (rest : List String) (kt : keysType)
    (hp : parsePEM v = none) :
    parseLoop parsePEM i (v :: rest) kt =
      ((parseLoop parsePEM (i + 1) rest kt).1,
       parseFailMsg i :: (parseLoop parsePEM (i + 1) rest kt).2) := by
  simp only [parseLoop, hp]

theorem parseLoop_cons_ok (parsePEM : String → Option PublicKey)
    (i : Nat) (v : String) (rest : List String) (kt : keysType)
    (key : PublicKey) (hp : parsePEM v = some key) :
    parseLoop parsePEM i (v :: rest) kt =
      parseLoop parsePEM (i + 1) rest (applyKey kt key) := by
  simp only [parseLoop, hp]
  rfl

theorem applyKey_first (kt : keysType) (key : PublicKey) :
    (applyKey kt key).first =
      if kt.first.isNone then some key else kt.first := by
  cases hkf : kt.first with
  | none => simp [applyKey, hkf]
  | some k => simp [applyKey, hkf]

theorem parseLoop_first_of_isSome (parsePEM : String → Option PublicKey)
    (rest : List String) :
    ∀ (i : Nat) (kt : keysType), kt.first.isSome →
      (parseLoop parsePEM i rest kt).1.first = kt.first := by
  induction rest with
  | nil => intro i kt _; rfl
  | cons v rest ih =>
    intro i kt h
    cases hp : parsePEM v with
    | none =>
      rw [parseLoop_cons_fail parsePEM i v rest kt hp]
      exact ih (i + 1) kt h
    | some key =>
      rw [parseLoop_cons_ok parsePEM i v rest kt key hp]
      have hfirst : (applyKey kt key).first = kt.first := by
        rw [applyKey_first]
        cases hkf : kt.first
        · rw [hkf] at h; cases h
        · rfl
      rw [ih (i + 1) (applyKey kt key) (by rw [hfirst]; exact h), hfirst]

theorem parseLoop_first_of_find (parsePEM : String → Option PublicKey)
    (rest : List String) :
    ∀ (i : Nat) (kt : keysType) (v : String), kt.first = none →
      rest.find? (fun s => (parsePEM s).isSome) = some v →
      (parseLoop parsePEM i rest kt).1.first = parsePEM v := by
  induction rest with
  | nil => intro i kt v _ hf; cases hf
  | cons x rest ih =>
    intro i kt v h hf
    cases hp : parsePEM x with
    | none =>
      have hx : ¬((fun s => (parsePEM s).isSome) x = true) := by
        simp [hp]
      rw [List.find?_cons_of_neg (p := fun s => (parsePEM s).isSome) rest hx] at hf
      rw [parseLoop_cons_fail parsePEM i x rest kt hp]
      exact ih (i + 1) kt v h hf
    | some key =>
      have hx : ((fun s => (parsePEM s).isSome) x : Bool) = true := by
        simp [hp]
      rw [List.find?_cons_of_pos (p := fun s => (parsePEM s).isSome) rest hx] at hf
      cases hf
      rw [parseLoop_cons_ok parsePEM i x rest kt key hp]
      have hfirst : (applyKey kt key).first = some key := by
        rw [applyKey_first, h]; rfl
      rw [parseLoop_first_of_isSome parsePEM rest (i + 1) (applyKey kt key)
          (by rw [hfirst]; rfl), hfirst, hp]

theorem parseLoop_first_of_find_none (parsePEM : String → Option PublicKey)
    (rest : List String) :
    ∀ (i : Nat) (kt : keysType), kt.first = none →
      rest.find? (fun s => (parsePEM s).isSome) = none →
      (parseLoop parsePEM i rest kt).1.first = none := by
  induction rest with
  | nil => intro i kt h _; exact h
  | cons x rest ih =>
    intro i kt h hf
    cases hp : parsePEM x with
    | none =>
      have hx : ¬((fun s => (parsePEM s).isSome) x = true) := by
        simp [hp]
      rw [List.find?_cons_of_neg (p := fun s => (parsePEM s).isSome) rest hx] at hf
      rw [parseLoop_cons_fail parsePEM i x rest kt hp]
      exact ih (i + 1) kt h hf
    | some key =>
      have hx : ((fun s => (parsePEM s).isSome) x : Bool) = true := by
        simp [hp]
      rw [List.find?_cons_of_pos (p := fun s => (parsePEM s).isSome) rest hx] at hf
      cases hf

theorem parseLoop_logs_fail (parsePEM : String → Option PublicKey)
    (rest : List String) :
    ∀ (i j : Nat) (kt : keysType) (v : String), rest.get? j = some v →
      parsePEM v = none →
      parseFailMsg (i + j) ∈ (parseLoop parsePEM i rest kt).2 := by
  induction rest with
  | nil => intro i j kt v hj _; cases hj
  | cons x rest ih =>
    intro i j kt v hj hp
    cases j with
    | zero =>
      cases hj
      rw [parseLoop_cons_fail parsePEM i x rest kt hp]
      exact List.mem_cons_self _ _
    | succ j =>
      have hj' : rest.get? j = some v := hj
      cases hx : parsePEM x with
      | none =>
        rw [parseLoop_cons_fail parsePEM i x rest kt hx]
        have h2 := ih (i + 1) j kt v hj' hp
        rw [show i + 1 + j = i + (j + 1) by omega] at h2
        exact List.mem_cons_of_mem _ h2
      | some key =>
        rw [parseLoop_cons_ok parsePEM i x rest kt key hx]
        have h2 := ih (i + 1) j (applyKey kt key) v hj' hp
        rwa [show i + 1 + j = i + (j + 1) by omega] at h2

theorem parseVersionedKeys_some_first_isSome
    (parsePEM : String → Option PublicKey) (all : List String)
    (kt : keysType) (h : (parseVersionedKeys parsePEM all).1 = some kt) :
    kt.first.isSome = true := by
  unfold parseVersionedKeys at h
  by_cases hn :
      (parseLoop parsePEM 0 all { m := [], first := none }).1.first.isNone = true
  · rw [if_pos hn] at h
    cases h
  · rw [if_neg hn] at h
    cases h
    cases hkf : (parseLoop parsePEM 0 all { m := [], first := none }).1.first
    · rw [hkf] at hn
      exact absurd rfl hn
    · rfl

theorem getKey_isSome (kt : keysType) (h : kt.first.isSome = true)
    (kid : String) : (kt.getKey kid).isSome = true := by
  unfold keysType.getKey
  cases mapIndex kt.m kid
  · exact h
  · rfl

set_option maxRecDepth 1000000 in
/-- Sanity check of the fingerprint model against the repository's own test
constants: the key validKey1 of validator_middleware_test.go has exactly the
fingerprint the test expects (fingerprint1). -/
theorem fingerprint_matches_repo_test_constant :
    RSAPublicKeyFingerprint repoTestKey1 =
      Except.ok "SHA256:lZ0hkWRsDpapeBu2ekX9WY2oYInHwdRaXTwtBecDicI" := by
  decide

/-! ## Claim theorems -/

/-- C7: for every token string, if no keysType has ever been stored
(no successful rotation has occurred), ValidateToken fails with
ErrNoPublicKeysLoaded. -/
theorem validateToken_no_keys_loaded (now : Int)
    (decode : String → Option JWTData) (token : String) :
    ValidateToken now decode none token =
      Except.error TokenError.errNoPublicKeysLoaded := rfl

/-- C6 counterexample: with no keysType installed, ValidateToken on the
empty string fails with ErrNoPublicKeysLoaded, not ErrEmptyToken — the
no-keys check precedes the empty-token check, so the claim as stated
(every store state) is false. -/
theorem validateToken_empty_counterexample :
    ValidateToken 0 decodeNone none "" =
        Except.error TokenError.errNoPublicKeysLoaded ∧
      ValidateToken 0 decodeNone none "" ≠
        Except.error TokenError.errEmptyToken := by
  decide

/-- C6 amended: whenever a keysType is installed in the store,
ValidateToken on the empty string fails with exactly ErrEmptyToken. -/
theorem validateToken_empty_token (now : Int)
    (decode : String → Option JWTData) (keys : keysType) :
    ValidateToken now decode (some keys) "" =
      Except.error TokenError.errEmptyToken := rfl

/-- C8: RSAPublicKeyFingerprint is a deterministic pure function of the
key material — structurally equal keys have equal fingerprints, recomputing
yields the identical output, and the result is the SHA-256 digest of the
SSH wire encoding of the key rendered as SHA256: followed by unpadded
base64. -/
theorem fingerprint_deterministic (k1 k2 : PublicKey) (h : k1 = k2) :
    RSAPublicKeyFingerprint k1 = RSAPublicKeyFingerprint k2 ∧
      RSAPublicKeyFingerprint k1 = RSAPublicKeyFingerprint k1 ∧
      RSAPublicKeyFingerprint k1 =
        Except.ok ("SHA256:" ++ base64RawStd (sha256 (sshWireRSA k1))) :=
  ⟨h ▸ rfl, rfl, rfl⟩

/-- C8 witness: the theorem applied to the concrete key keyA. -/
theorem fingerprint_deterministic_witness :
    RSAPublicKeyFingerprint keyA = RSAPublicKeyFingerprint keyA ∧
      RSAPublicKeyFingerprint keyA = RSAPublicKeyFingerprint keyA ∧
      RSAPublicKeyFingerprint keyA =
        Except.ok ("SHA256:" ++ base64RawStd (sha256 (sshWireRSA keyA))) :=
  fingerprint_deterministic keyA keyA rfl

/-- C9: HeaderToContext on the empty header string returns the original
context and no error; FromHeader returns a nil context and nil error on the
empty header; and SetEdgeContext with a nil EdgeRequestContext is the
identity on the context. -/
theorem headerToContext_empty_header
    (deserialize : String → Option ECRequest) (ctx : GoContext) :
    HeaderToContext deserialize ctx "" = (ctx, none) ∧
      FromHeader deserialize "" = Except.ok none ∧
      SetEdgeContext ctx none = ctx :=
  ⟨rfl, rfl, rfl⟩

/-- C10: every invocation of the handler produced by validatorMiddleware
invokes the wrapped next handler exactly once with the delivered secrets
snapshot, on every path — fetch failure, zero valid keys, or success. -/
theorem middleware_always_calls_next (parsePEM : String → Option PublicKey)
    (keysValue : Option keysType) (sec : Secrets) :
    (validatorMiddleware parsePEM keysValue sec).nextCalls = [sec] := by
  unfold validatorMiddleware
  split
  · rfl
  · split <;> rfl


/-! ## Further helper lemmas (jwt parse characterizations) -/

theorem parseWithClaims_some (now : Int) (keys : keysType) (jd : JWTData) :
    parseWithClaims now keys (some jd) =
      (match getSigningMethod jd.alg with
       | none => Except.error unavailableAlgErr
       | some kind =>
         let key := keys.getKey (jd.kid.getD "")
         let cErr := jd.claims.registeredClaims.validateAt now
         let sigFail := !methodVerify kind jd.alg key jd.sigOK
         let vErr := { cErr with signatureInvalid := sigFail }
         if vErr = ({} : ValidationError) then Except.ok (jd.alg, jd.claims)
         else Except.error vErr) := rfl

theorem parseWithClaims_noalg (now : Int) (keys : keysType) (jd : JWTData)
    (hm : getSigningMethod jd.alg = none) :
    parseWithClaims now keys (some jd) = Except.error unavailableAlgErr := by
  rw [parseWithClaims_some, hm]

theorem parseWithClaims_kind (now : Int) (keys : keysType) (jd : JWTData)
    (kind : SigningMethodKind) (hm : getSigningMethod jd.alg = some kind) :
    parseWithClaims now keys (some jd) =
      (if ({ jd.claims.registeredClaims.validateAt now with
            signatureInvalid := !methodVerify kind jd.alg
              (keys.getKey (jd.kid.getD "")) jd.sigOK } : ValidationError) =
          ({} : ValidationError)
       then Except.ok (jd.alg, jd.claims)
       else Except.error { jd.claims.registeredClaims.validateAt now with
            signatureInvalid := !methodVerify kind jd.alg
              (keys.getKey (jd.kid.getD "")) jd.sigOK }) := by
  rw [parseWithClaims_some, hm]

theorem parseWithClaims_ok (now : Int) (keys : keysType) (d : Option JWTData)
    (x : String × AuthenticationToken)
    (h : parseWithClaims now keys d = Except.ok x) :
    ∃ jd, d = some jd ∧ x = (jd.alg, jd.claims) := by
  cases d with
  | none => cases h
  | some jd =>
    refine ⟨jd, rfl, ?_⟩
    cases hm : getSigningMethod jd.alg with
    | none =>
      rw [parseWithClaims_noalg now keys jd hm] at h
      cases h
    | some kind =>
      rw [parseWithClaims_kind now keys jd kind hm] at h
      split at h
      · injection h with h2
        exact h2.symm
      · cases h

theorem parseWithClaims_ok_of (now : Int) (keys : keysType) (jd : JWTData)
    (kind : SigningMethodKind)
    (hm : getSigningMethod jd.alg = some kind)
    (hrsa : kind = SigningMethodKind.rsa ∨ kind = SigningMethodKind.rsapss)
    (hc : jd.claims.registeredClaims.validateAt now = {})
    (hs : ∀ k, jd.sigOK jd.alg k = true)
    (hk : keys.first.isSome = true) :
    parseWithClaims now keys (some jd) = Except.ok (jd.alg, jd.claims) := by
  obtain ⟨k, hkeq⟩ := Option.isSome_iff_exists.mp
    (getKey_isSome keys hk (jd.kid.getD ""))
  have hmv : methodVerify kind jd.alg (keys.getKey (jd.kid.getD ""))
      jd.sigOK = true := by
    rw [hkeq]
    rcases hrsa with hr | hr <;> subst hr <;> exact hs k
  have hcond : ({ jd.claims.registeredClaims.validateAt now with
      signatureInvalid := !methodVerify kind jd.alg
        (keys.getKey (jd.kid.getD "")) jd.sigOK } : ValidationError) =
      ({} : ValidationError) := by
    rw [hc, hmv]
    rfl
  rw [parseWithClaims_kind now keys jd kind hm, if_pos hcond]

theorem ValidateToken_some (now : Int) (decode : String → Option JWTData)
    (keys : keysType) (token : String) :
    ValidateToken now decode (some keys) token =
      (if token = "" then Except.error TokenError.errEmptyToken
       else
         match parseWithClaims now keys (decode token) with
         | Except.error e => Except.error (TokenError.jwtError e)
         | Except.ok (alg, claims) =>
           if alg ≠ jwtAlg then Except.error TokenError.wrongSigningMethod
           else Except.ok claims) := rfl

theorem validateToken_some_ok (now : Int) (decode : String → Option JWTData)
    (keys : keysType) (token : String) (jd : JWTData)
    (ht : token ≠ "") (hd : decode token = some jd)
    (h : parseWithClaims now keys (some jd) = Except.ok (jd.alg, jd.claims)) :
    ValidateToken now decode (some keys) token =
      if jd.alg ≠ jwtAlg then Except.error TokenError.wrongSigningMethod
      else Except.ok jd.claims := by
  rw [ValidateToken_some, if_neg ht, hd, h]

/-- C2: for every candidate sequence with at least one parseable PEM entry,
parseVersionedKeys returns a non-null keysType whose first (fallback) key is
the first parseable entry, and every earlier or later candidate that fails
to parse is merely logged — it never aborts the rotation. -/
theorem parseVersionedKeys_first_parseable (parsePEM : String → Option PublicKey) (all : List String) (v : String)
    (hf : all.find? (fun s => (parsePEM s).isSome) = some v) :
    ((parseVersionedKeys parsePEM all).1.map keysType.first =
        some (parsePEM v)) ∧
      (∀ j w, all.get? j = some w → parsePEM w = none →
        parseFailMsg j ∈ (parseVersionedKeys parsePEM all).2) := by
  have hfirst := parseLoop_first_of_find parsePEM all 0
    { m := [], first := none } v rfl hf
  have hsome : (parsePEM v).isSome = true := by
    simpa using List.find?_some hf
  have hnn : ¬(parseLoop parsePEM 0 all
      { m := [], first := none }).1.first.isNone = true := by
    rw [hfirst]
    cases hp : parsePEM v with
    | none => rw [hp] at hsome; cases hsome
    | some k => simp
  constructor
  · unfold parseVersionedKeys
    rw [if_neg hnn]
    simp [hfirst]
  · intro j w hj hw
    unfold parseVersionedKeys
    rw [if_neg hnn]
    have h2 := parseLoop_logs_fail parsePEM all 0 j
      { m := [], first := none } w hj hw
    simpa using h2

/-- C2 witness: over the candidates [bad, K1] where only K1 parses, the
ring is built, its fallback is the K1 key, and the bad candidate at
position 0 is logged. -/
theorem parseVersionedKeys_first_parseable_witness :
    ((parseVersionedKeys parsePEMK1 ["bad", "K1"]).1.map keysType.first =
        some (parsePEMK1 "K1")) ∧
      parseFailMsg 0 ∈ (parseVersionedKeys parsePEMK1 ["bad", "K1"]).2 :=
  ⟨(parseVersionedKeys_first_parseable parsePEMK1 ["bad", "K1"] "K1"
      (by decide)).1,
   (parseVersionedKeys_first_parseable parsePEMK1 ["bad", "K1"] "K1"
      (by decide)).2 0 "bad" rfl (by decide)⟩

/-- C3: for every candidate sequence with zero parseable entries,
parseVersionedKeys returns null and logs the no-valid-keys message; a
keysType with a null fallback is never returned (see
parseVersionedKeys_some_first_isSome). -/
theorem parseVersionedKeys_no_parseable
    (parsePEM : String → Option PublicKey) (all : List String)
    (hf : all.find? (fun s => (parsePEM s).isSome) = none) :
    (parseVersionedKeys parsePEM all).1 = none ∧
      noValidKeysMsg ∈ (parseVersionedKeys parsePEM all).2 := by
  have hfirst := parseLoop_first_of_find_none parsePEM all 0
    { m := [], first := none } rfl hf
  have hin : (parseLoop parsePEM 0 all
      { m := [], first := none }).1.first.isNone = true := by
    rw [hfirst]; rfl
  constructor
  · unfold parseVersionedKeys
    rw [if_pos hin]
  · unfold parseVersionedKeys
    rw [if_pos hin]
    simp [noValidKeysMsg]

/-- C3 witness: two unparseable candidates yield a null result and the
log line. -/
theorem parseVersionedKeys_no_parseable_witness :
    (parseVersionedKeys parsePEMNone ["a", "b"]).1 = none ∧
      noValidKeysMsg ∈ (parseVersionedKeys parsePEMNone ["a", "b"]).2 :=
  parseVersionedKeys_no_parseable parsePEMNone ["a", "b"] (by decide)

/-- C5: for every keysType built by parseVersionedKeys and every key id,
getKey returns the map entry when present and non-null, otherwise the
fallback first key, and it never returns null — an unknown or missing key
id is not an error at this layer. -/
theorem getKey_resolution (parsePEM : String → Option PublicKey)
    (all : List String) (kt : keysType)
    (h : (parseVersionedKeys parsePEM all).1 = some kt) (kid : String) :
    (∀ k, mapIndex kt.m kid = some k → kt.getKey kid = some k) ∧
      (mapIndex kt.m kid = none → kt.getKey kid = kt.first) ∧
      (kt.getKey kid).isSome = true := by
  have hfs := parseVersionedKeys_some_first_isSome parsePEM all kt h
  refine ⟨?_, ?_, getKey_isSome kt hfs kid⟩
  · intro k hk
    unfold keysType.getKey
    rw [hk]
  · intro hk
    unfold keysType.getKey
    rw [hk]

set_option maxRecDepth 1000000 in
/-- C5 witness: over the ring built from [bad, K1], an id absent from the
map resolves to the fallback and is non-null. -/
theorem getKey_resolution_witness :
    ktK1.getKey "unknown" = ktK1.first ∧
      (ktK1.getKey "unknown").isSome = true :=
  ⟨(getKey_resolution parsePEMK1 ["bad", "K1"] ktK1 (by decide)
      "unknown").2.1 (by decide),
   (getKey_resolution parsePEMK1 ["bad", "K1"] ktK1 (by decide)
      "unknown").2.2⟩

/-- C4: a rotation event whose material yields zero valid keys (or whose
versioned secret cannot even be fetched is logged too, but here: parse
yields null) leaves the stored keysValue unchanged, and every subsequent
ValidateToken call behaves exactly as under the previous state — no error
is surfaced to validation callers. -/
theorem rotation_zero_valid_keys_keeps_previous (parsePEM : String → Option PublicKey)
    (keysValue : Option keysType) (sec : Secrets)
    (versioned : VersionedSecret)
    (hget : sec.getVersionedSecret authenticationPubKeySecretPath =
      Except.ok versioned)
    (hparse : (parseVersionedKeysSecret parsePEM versioned).1 = none) :
    (validatorMiddleware parsePEM keysValue sec).keysValue = keysValue ∧
      ∀ (now : Int) (decode : String → Option JWTData) (token : String),
        ValidateToken now decode
            (validatorMiddleware parsePEM keysValue sec).keysValue token =
          ValidateToken now decode keysValue token := by
  have hkv : (validatorMiddleware parsePEM keysValue sec).keysValue =
      keysValue := by
    unfold validatorMiddleware
    split
    · rfl
    · rename_i versioned2 heq
      split
      · rfl
      · rename_i keys logs heq2
        rw [hget] at heq
        injection heq with he
        subst he
        rw [heq2] at hparse
        cases hparse
  exact ⟨hkv, fun now decode token => by rw [hkv]⟩

/-- C4 witness: a snapshot whose only candidate fails to parse leaves the
previously installed ring in place. -/
theorem rotation_zero_valid_keys_keeps_previous_witness :
    (validatorMiddleware parsePEMNone (some keysOnlyFirst)
        secretsBad).keysValue = some keysOnlyFirst :=
  (rotation_zero_valid_keys_keeps_previous parsePEMNone (some keysOnlyFirst)
      secretsBad badVersioned rfl (by decide)).1

/-- C1 counterexample: a structurally well-formed token declaring HS256
whose signature check would succeed structurally is rejected, but with the
signature-invalid parse error propagated from the jwt library (the HMAC
method rejects the RSA key type), not with the wrong-signing-method
(UnsupportedAlgorithm) error — so the claim that every non-RS256 token
fails specifically with UnsupportedAlgorithmError is false. -/
theorem validateToken_hs256_counterexample :
    ValidateToken 0 decodeHS256 (some keysOnlyFirst) "tok" =
        Except.error (TokenError.jwtError { signatureInvalid := true }) ∧
      ValidateToken 0 decodeHS256 (some keysOnlyFirst) "tok" ≠
        Except.error TokenError.wrongSigningMethod := by
  decide

/-- C1 amended: every token whose header declares an algorithm other than
RS256 fails validation (is never accepted); when the declared algorithm is
an RSA-family one (so the library verifies it against the resolved RSA key)
and the structurally-valid signature and claims check out, the failure is
exactly the wrong-signing-method error of the fixed post-verification
comparison against jwtAlg; for other algorithms the failure comes earlier,
because the library dispatches the verification method from the token
header and that method rejects the RSA key supplied by the keyfunc. -/
theorem validateToken_non_rs256_rejected (now : Int)
    (decode : String → Option JWTData) (keys : keysType) (token : String)
    (jd : JWTData)
    (hk : keys.first.isSome = true)
    (ht : token ≠ "")
    (hd : decode token = some jd)
    (halg : jd.alg ≠ "RS256") :
    (∀ claims, ValidateToken now decode (some keys) token ≠
        Except.ok claims) ∧
      ((getSigningMethod jd.alg = some SigningMethodKind.rsa ∨
        getSigningMethod jd.alg = some SigningMethodKind.rsapss) →
       jd.claims.registeredClaims.validateAt now = {} →
       (∀ k, jd.sigOK jd.alg k = true) →
       ValidateToken now decode (some keys) token =
         Except.error TokenError.wrongSigningMethod) := by
  have halg2 : jd.alg ≠ jwtAlg := halg
  constructor
  · intro claims hcl
    rw [ValidateToken_some, if_neg ht, hd] at hcl
    cases hpw : parseWithClaims now keys (some jd) with
    | error e => rw [hpw] at hcl; cases hcl
    | ok x =>
      rw [hpw] at hcl
      obtain ⟨jd2, hjd2, hx⟩ := parseWithClaims_ok now keys (some jd) x hpw
      injection hjd2 with hjd2e
      subst hjd2e
      subst hx
      have hcl2 : (if jd.alg ≠ jwtAlg then
          Except.error TokenError.wrongSigningMethod
          else Except.ok jd.claims) = Except.ok claims := hcl
      rw [if_pos halg2] at hcl2
      cases hcl2
  · intro hkind hc hs
    have hok : parseWithClaims now keys (some jd) =
        Except.ok (jd.alg, jd.claims) := by
      rcases hkind with hr | hr
      · exact parseWithClaims_ok_of now keys jd SigningMethodKind.rsa hr
          (Or.inl rfl) hc hs hk
      · exact parseWithClaims_ok_of now keys jd SigningMethodKind.rsapss hr
          (Or.inr rfl) hc hs hk
    rw [validateToken_some_ok now decode keys token jd ht hd hok,
      if_pos halg2]

/-- C1 witness: a valid RS384 token with an installed ring is rejected
with the wrong-signing-method error. -/
theorem validateToken_non_rs256_rejected_witness :
    ValidateToken 0 decodeRS384 (some keysOnlyFirst) "tok" =
      Except.error TokenError.wrongSigningMethod :=
  (validateToken_non_rs256_rejected 0 decodeRS384 keysOnlyFirst "tok"
      rs384jd rfl (by decide) rfl (by decide)).2
    (Or.inl (by decide)) (by decide) (fun k => rfl)

end Edgecontext
